import Mathlib

/-!
Verification of the render-based pose-refinement core of the feature_3dgs
repository.  The development shallowly embeds the per-frame control flow of
`localize_set` (src/z_localization/loc_inference_ace.py and its raw variant
src/z_localization/loc_inference_ace_raw.py), the pose-convention conversion
`c2w_to_w2c` (src/eval/eval_scannet1500.py), and the camera-shuffling logic of
`Scene.__init__` (src/scene/__init__.py).  External collaborators (the ACE
regressor + dsacstar coarse-pose provider, the Gaussian renderer, the feature
matchers, `project_2d_to_3d`, the PnP solvers and the pose-error metrics, all
of which live outside the embedded orchestrator) are modelled as explicit
oracle functions bundled in an `Ext` record; the orchestrator itself is
translated line by line.  Machine floats are modelled as rationals; Python
exceptions (NameError on an unbound local, ZeroDivisionError) are modelled
with `Except`.
-/

namespace FeatureGS

/-- Rational 3x3 matrix (a numpy 3x3 float array). -/
abbrev M3 := Matrix (Fin 3) (Fin 3) ℚ

/-- Rational 4x4 matrix (a numpy / torch 4x4 array). -/
abbrev M4 := Matrix (Fin 4) (Fin 4) ℚ

/-- A length-3 vector. -/
abbrev V3 := Fin 3 → ℚ

/-- A 2D pixel coordinate. -/
abbrev Pix := ℚ × ℚ

/-- Python exceptions that the embedded control flow can raise:
`nameError v` models reading the unbound local variable `v`;
`zeroDivisionError` models `x / 0` on Python numbers. -/
inductive PyErr where
  | nameError (v : String)
  | zeroDivisionError
deriving DecidableEq, Repr

/-- Slice `T_cw[:3, :3]`: the top-left 3x3 rotation block of a 4x4 transform. -/
def rotOf4 (T : M4) : M3 :=
  Matrix.of ![![T 0 0, T 0 1, T 0 2],
              ![T 1 0, T 1 1, T 1 2],
              ![T 2 0, T 2 1, T 2 2]]

/-- Slice `T_cw[:3, 3]`: the top-right translation column of a 4x4 transform. -/
def transOf4 (T : M4) : V3 := ![T 0 3, T 1 3, T 2 3]

/-- Result of `np.eye(4)` (resp. `torch.eye(4,4)`) with the top-left 3x3 block
overwritten by `R` and the top-right column by `t`.  This construction is
shared by `c2w_to_w2c` (src/eval/eval_scannet1500.py lines 83-86) and the
`w2c` assembly in `localize_set` (src/z_localization/loc_inference_ace.py
lines 116-118). -/
def mk44 (R : M3) (t : V3) : M4 :=
  Matrix.of ![![R 0 0, R 0 1, R 0 2, t 0],
              ![R 1 0, R 1 1, R 1 2, t 1],
              ![R 2 0, R 2 1, R 2 2, t 2],
              ![0, 0, 0, 1]]

/-- Function `c2w_to_w2c` from src/eval/eval_scannet1500.py: extract `R = T_cw[:3,:3]`
and `t = T_cw[:3,3]`, set `R_inv = R.T`, `t_inv = -R_inv @ t`, and assemble
`T_wc` from `np.eye(4)` with the two blocks overwritten. -/
def c2w_to_w2c (T_cw : M4) : M4 :=
  let R := rotOf4 T_cw
  let t := transOf4 T_cw
  let R_inv := R.transpose
  let t_inv := -(R_inv.mulVec t)
  mk44 R_inv t_inv

/-- A view / test camera (`scene.cameras.Camera`): the fields of the frame
record that `localize_set` reads or writes.  `original_image` and
`image_name` are abstract handles. -/
structure Camera where
  R : M3
  T : V3
  FoVx : ℚ
  image_width : ℕ
  image_height : ℕ
  original_image : ℕ
  image_name : ℕ

/-- Modelled from the spec: the camera mutator `view.update_RT(out_R, t_inv)`
called by `localize_set` (src/z_localization/loc_inference_ace.py line 119)
is defined outside the provided sources; per its call sites it overwrites the
stored rotation and translation of the view with its two arguments, leaving every
other field of the frame record in place. -/
def updateRT (v : Camera) (R : M3) (t : V3) : Camera :=
  { v with R := R, T := t }

/-- A matcher result dictionary: the `mkpt0` entry holds query-side
keypoints, the `mkpt1` entry render-side keypoints. -/
structure MatchRes where
  mkpt0 : List Pix
  mkpt1 : List Pix
deriving DecidableEq

/-- The render package returned by `render(view, gaussians, pipe_param,
background)`: color image, score map, feature map and depth map, all
abstract handles. -/
structure RenderPkg where
  render : ℕ
  score_map : ℕ
  feature_map : ℕ
  depth : ℕ
deriving DecidableEq

/-- The four error lists and the elapsed-time accumulator of `localize_set`. -/
structure LocState where
  rErrs : List ℚ
  tErrs : List ℚ
  prior_rErr : List ℚ
  prior_tErr : List ℚ
  total_elapsed_time : ℚ
deriving DecidableEq

/-- The empty accumulator at the top of `localize_set`. -/
def initState : LocState := ⟨[], [], [], [], 0⟩

/-- Record one frame: append the prior (coarse) errors to `prior_rErr` /
`prior_tErr`, the final errors to `rErrs` / `tErrs`, and add `dt` to the
elapsed-time accumulator. -/
def recordFrame (s : LocState) (prior fin : ℚ × ℚ) (dt : ℚ) : LocState :=
  { rErrs := s.rErrs ++ [fin.1]
    tErrs := s.tErrs ++ [fin.2]
    prior_rErr := s.prior_rErr ++ [prior.1]
    prior_tErr := s.prior_tErr ++ [prior.2]
    total_elapsed_time := s.total_elapsed_time + dt }

/-- The external collaborators of the orchestrator, as oracle functions.
Each field corresponds to one call made by `localize_set`
(src/z_localization/loc_inference_ace.py); the orchestrator composes them
but never looks inside them. -/
structure Ext where
  /-- Call `fov2focal(view.FoVx, view.image_width)`. -/
  fov2focal : ℚ → ℕ → ℚ
  /-- ACE regression + `dsacstar.forward_rgb`: from the query image handle to
  the coarse camera-to-world pose `out_pose`. -/
  coarse : ℕ → M4
  /-- Call `render(view, gaussians, pipe_param, background)`. -/
  renderFn : Camera → RenderPkg
  /-- Call `loc_utils.match_img(query, db_score, db_feature, ...)` (match_type 0). -/
  m0 : ℕ → ℕ → ℕ → Option MatchRes
  /-- Call `loc_utils.feat_fromImg_match(query, db_score, db_render, ...)` (match_type 1). -/
  m1 : ℕ → ℕ → ℕ → Option MatchRes
  /-- Call `loc_utils.img_match2(query, db_render, ...)` (match_type 2). -/
  m2 : ℕ → ℕ → Option MatchRes
  /-- Call `loc_utils.img_match_mast3r(query, db_render, ...)` (match_type 3). -/
  m3 : ℕ → ℕ → Option MatchRes
  /-- Call `loc_utils.img_match_loftr(query, db_render, ...)` (match_type 4). -/
  m4 : ℕ → ℕ → Option MatchRes
  /-- Call `project_2d_to_3d(mkpt1, db_depth, K, w2c)`: 3D world points. -/
  projectFn : List Pix → ℕ → M3 → M4 → List V3
  /-- Call `cv2.solvePnPRansac(..., flags=SOLVEPNP_ITERATIVE, iterationsCount=n)`:
  success flag, rotation vector, translation vector. -/
  solveIters : List V3 → List Pix → M3 → ℕ → Bool × V3 × V3
  /-- Call `cv2.solvePnPRansac(..., flags=SOLVEPNP_EPNP)`. -/
  solveEpnp : List V3 → List Pix → M3 → Bool × V3 × V3
  /-- Call `cv2.Rodrigues`: rotation vector to rotation matrix. -/
  rodrigues : V3 → M3
  /-- Call `opencv_to_pycolmap_pnp(db_world, q_matched, K, width, height)`. -/
  solvePycolmap : List V3 → List Pix → M3 → ℕ → ℕ → M3 × V3
  /-- Call `loc_utils.calculate_pose_errors_ace(gt_pose_44, out_pose)`. -/
  errAce : M4 → M4 → ℚ × ℚ
  /-- Call `loc_utils.calculate_pose_errors(gt_R, gt_t, R_final.T, t_final)`. -/
  errFinal : M3 → V3 → M3 → V3 → ℚ × ℚ

/-- The configuration fields of `args` that the per-frame loop reads. -/
structure Args where
  stop_kpt_num : ℕ
  ransac_iters : ℕ
  match_type : ℕ
  pnp : String
deriving DecidableEq

/-- One frame of loop input: the indexed view, the loader batch
fields, and the wall-clock duration of the frame (the value of
`time.time() - start` at the points where the code reads it). -/
structure FrameIn where
  view : Camera
  image_B1HW : ℕ
  gt_pose_44 : M4
  elapsed : ℚ

/-- The coarse pose `out_pose` produced by ACE + dsacstar for this frame. -/
def coarsePose (ext : Ext) (fr : FrameIn) : M4 := ext.coarse fr.image_B1HW

/-- Computes `(rotError, transError) = calculate_pose_errors_ace(gt_pose_44, out_pose)`. -/
def coarseErrs (ext : Ext) (fr : FrameIn) : ℚ × ℚ :=
  ext.errAce fr.gt_pose_44 (coarsePose ext fr)

/-- Computes `t_inv = -out_R.T @ out_t` (w2c translation of the coarse pose). -/
def tInvOf (ext : Ext) (fr : FrameIn) : V3 :=
  -((rotOf4 (coarsePose ext fr)).transpose.mulVec (transOf4 (coarsePose ext fr)))

/-- The `w2c` matrix assembled from `torch.eye(4,4)` with blocks `R_inv` and
`t_inv` (lines 116-118). -/
def w2cOf (ext : Ext) (fr : FrameIn) : M4 :=
  mk44 (rotOf4 (coarsePose ext fr)).transpose (tInvOf ext fr)

/-- The view after `view.update_RT(out_R, t_inv)` (line 119). -/
def viewPosed (ext : Ext) (fr : FrameIn) : Camera :=
  updateRT fr.view (rotOf4 (coarsePose ext fr)) (tInvOf ext fr)

/-- The intrinsics `K` assembled from `np.eye(3)` with
`K[0,0] = K[1,1] = fov2focal(FoVx, width)`, `K[0,2] = width/2`,
`K[1,2] = height/2` (lines 67-71). -/
def mkK (f : ℚ) (w h : ℕ) : M3 :=
  Matrix.of ![![f, 0, (w : ℚ) / 2], ![0, f, (h : ℚ) / 2], ![0, 0, 1]]

/-- The `K` matrix of this frame. -/
def kOf (ext : Ext) (fr : FrameIn) : M3 :=
  mkK (ext.fov2focal fr.view.FoVx fr.view.image_width) fr.view.image_width
    fr.view.image_height

/-- Value `render_pkg = render(view, ...)` evaluated after `update_RT` set the view
to the coarse pose (line 121). -/
def renderedPkg (ext : Ext) (fr : FrameIn) : RenderPkg :=
  ext.renderFn (viewPosed ext fr)

/-- The matcher dispatch of lines 129-138: `result` is bound by exactly one
of the five `match_type` branches; for any other `match_type` the local
`result` stays unbound, modelled as the outer `none` (the subsequent read
then raises `NameError`). -/
def matcherSel (ext : Ext) (args : Args) (fr : FrameIn) : Option (Option MatchRes) :=
  let pkg := renderedPkg ext fr
  let q := fr.view.original_image
  if args.match_type = 0 then some (ext.m0 q pkg.score_map pkg.feature_map)
  else if args.match_type = 1 then some (ext.m1 q pkg.score_map pkg.render)
  else if args.match_type = 2 then some (ext.m2 q pkg.render)
  else if args.match_type = 3 then some (ext.m3 q pkg.render)
  else if args.match_type = 4 then some (ext.m4 q pkg.render)
  else none

/-- Computes `db_world = project_2d_to_3d(result.mkpt1, db_depth, K, w2c)` (lines
160-162). -/
def dbWorldOf (ext : Ext) (fr : FrameIn) (r : MatchRes) : List V3 :=
  ext.projectFn r.mkpt1 (renderedPkg ext fr).depth (kOf ext fr) (w2cOf ext fr)

/-- The PnP dispatch of lines 167-179: returns the (optional) success flag
together with `R_final` (after `cv2.Rodrigues` for the OpenCV strategies)
and `t_final`.  The success flag returned by `cv2.solvePnPRansac` is bound
to `_` in the source, i.e. discarded; it is carried here so that theorems
can state that the control flow never consults it.  For a `pnp` string
other than the three recognized ones, `R_final` stays unbound (`none`). -/
def solveSel (ext : Ext) (args : Args) (fr : FrameIn) (r : MatchRes)
    (db_world : List V3) : Option (Option Bool × M3 × V3) :=
  let q_matched := r.mkpt0
  let K := kOf ext fr
  if args.pnp = "iters" then
    let o := ext.solveIters db_world q_matched K args.ransac_iters
    some (some o.1, ext.rodrigues o.2.1, o.2.2)
  else if args.pnp = "epnp" then
    let o := ext.solveEpnp db_world q_matched K
    some (some o.1, ext.rodrigues o.2.1, o.2.2)
  else if args.pnp = "pycolmap" then
    let o := ext.solvePycolmap db_world q_matched K fr.view.image_width
      fr.view.image_height
    some (none, o.1, o.2)
  else none

/-- Everything one iteration of the per-frame loop produces: the updated
accumulator, the (mutated) view object, and the frame-scoped intermediates.
`dbWorld = none` / `finalPose = none` record that the unprojector / solver
were not invoked on this frame. -/
structure FrameOut where
  state : LocState
  view : Camera
  pkg : RenderPkg
  matchRes : Option MatchRes
  dbWorld : Option (List V3)
  finalPose : Option (M3 × V3)
  solverFlag : Option Bool

/-- One iteration of the per-frame loop of `localize_set`
(src/z_localization/loc_inference_ace.py lines 62-201), starting from the
coarse-pose computation.  Branches, in source order: `result is None`
(lines 140-148, records the coarse errors in all four lists, adds no
elapsed time); too few keypoints (lines 149-157, same records plus
`total_elapsed_time += time.time()-start`); otherwise unproject, solve PnP
(the success flag of the solver is discarded), compute the final errors against
`gt_R`, `gt_t` captured at lines 72-73, and record (lines 158-201). -/
def processFrame (ext : Ext) (args : Args) (fr : FrameIn) (s : LocState) :
    Except PyErr FrameOut :=
  match matcherSel ext args fr with
  | none => .error (.nameError "result")
  | some none =>
      .ok { state := recordFrame s (coarseErrs ext fr) (coarseErrs ext fr) 0
            view := viewPosed ext fr
            pkg := renderedPkg ext fr
            matchRes := none, dbWorld := none, finalPose := none
            solverFlag := none }
  | some (some r) =>
      if ¬ (r.mkpt1.length > args.stop_kpt_num) then
        .ok { state := recordFrame s (coarseErrs ext fr) (coarseErrs ext fr)
                fr.elapsed
              view := viewPosed ext fr
              pkg := renderedPkg ext fr
              matchRes := some r, dbWorld := none, finalPose := none
              solverFlag := none }
      else
        match solveSel ext args fr r (dbWorldOf ext fr r) with
        | none => .error (.nameError "R_final")
        | some (flag, Rf, tf) =>
            .ok { state := recordFrame s (coarseErrs ext fr)
                    (ext.errFinal fr.view.R fr.view.T Rf.transpose tf)
                    fr.elapsed
                  view := viewPosed ext fr
                  pkg := renderedPkg ext fr
                  matchRes := some r, dbWorld := some (dbWorldOf ext fr r)
                  finalPose := some (Rf, tf), solverFlag := flag }

/-- The whole loop: fold `processFrame` over the frame sequence, propagating
the first raised exception. -/
def runFrames (ext : Ext) (args : Args) : List FrameIn → LocState →
    Except PyErr LocState
  | [], s => .ok s
  | fr :: rest, s =>
      match processFrame ext args fr s with
      | .error e => .error e
      | .ok out => runFrames ext args rest out.state

/-- Computes `mean_elapsed_time = total_elapsed_time / len(rErrs)`
(src/z_localization/loc_inference_ace.py line 205).  Python division by the
length of an empty list raises ZeroDivisionError. -/
def summarize (s : LocState) : Except PyErr ℚ :=
  if s.rErrs.length = 0 then .error .zeroDivisionError
  else .ok (s.total_elapsed_time / s.rErrs.length)

/-! ## Scene / DataLoader ordering (src/scene/__init__.py, localize) -/

/-- A record yielded by the ACE test `DataLoader`, plus the ambient
wall-clock duration. -/
structure LoaderRec where
  image_B1HW : ℕ
  gt_pose_44 : M4
  elapsed : ℚ

/-- The test-camera list produced by `Scene.__init__`
(src/scene/__init__.py lines 70-72): `random.shuffle(scene_info.test_cameras)`
is applied if and only if the `shuffle` flag is set.  The RNG is modelled as
an arbitrary reordering function `rng`. -/
def sceneTestCameras (shuffle : Bool) (rng : List Camera → List Camera)
    (cams : List Camera) : List Camera :=
  if shuffle then rng cams else cams

/-- The enumeration order of `DataLoader(testset, shuffle=False, ...)`
(src/z_localization/loc_inference_ace.py line 243): a shuffling loader would
permute with its RNG, a non-shuffling one yields dataset order. -/
def loaderOrder (shuffle : Bool) (rng : List LoaderRec → List LoaderRec)
    (recs : List LoaderRec) : List LoaderRec :=
  if shuffle then rng recs else recs

/-- Pair `views[index]` with the loader batch of the same index (lines 62-63). -/
def mkFrame (v : Camera) (r : LoaderRec) : FrameIn :=
  ⟨v, r.image_B1HW, r.gt_pose_44, r.elapsed⟩

/-- The `localize` entry point (src/z_localization/loc_inference_ace.py lines
215-245) as far as ordering is concerned: it constructs the `Scene` with
`shuffle=False`, the test `DataLoader` with `shuffle=False`, and runs
`localize_set` over the paired sequence. -/
def localizeModel (ext : Ext) (args : Args) (rngS : List Camera → List Camera)
    (rngL : List LoaderRec → List LoaderRec) (cams : List Camera)
    (recs : List LoaderRec) : Except PyErr LocState :=
  runFrames ext args
    (List.zipWith mkFrame (sceneTestCameras false rngS cams)
      (loaderOrder false rngL recs))
    initState

/-! ## Pose error metric (modelled from the spec) -/

/-- Modelled from the spec: the rotation-error metric of
`loc_utils.calculate_pose_errors` / `calculate_pose_errors_ace` lives in
utils/loc/loc_utils.py, which is not among the provided sources.  Per spec
section 4.5 the raw cosine argument is `(trace(R_est^T * R_gt) - 1) / 2`. -/
def rotErrorCosArg (R_est R_gt : M3) : ℚ :=
  (Matrix.trace (R_est.transpose * R_gt) - 1) / 2

/-- Modelled from the spec: clamp into `[-1, 1]` before the inverse cosine. -/
def clampCos (x : ℚ) : ℚ := max (-1) (min 1 x)

/-- The clamped cosine argument actually handed to the inverse cosine. -/
def clampedRotArg (R_est R_gt : M3) : ℚ :=
  clampCos (rotErrorCosArg R_est R_gt)

/-- Modelled from the spec: the rotation error in degrees,
`arccos(clamp((trace(R_est^T*R_gt)-1)/2, -1, 1))` converted to degrees; the
composition `degrees ∘ arccos` is abstracted as the parameter `acosDeg`
since only the domain of its argument matters for the safety claim. -/
def rotErrorDeg (acosDeg : ℚ → ℚ) (R_est R_gt : M3) : ℚ :=
  acosDeg (clampedRotArg R_est R_gt)

/-! ## The raw variant (src/z_localization/loc_inference_ace_raw.py) -/

/-- Per-frame oracle data for the loop of the raw variant.  `matcherResult` is
the value of `img_match_rival` (match_type 0) / `img_match_aspan`
(match_type 2); `mast3rErrs` the pair returned by `img_match_mast3r`
(match_type 1); `coarseErrs` the pair from `calculate_pose_errors_ace`;
`solveErrs` the final errors computed from the PnP solve on the refined
path; `elapsed` the wall-clock duration of the frame. -/
structure RawFrame where
  matchType : ℕ
  matcherResult : Option MatchRes
  mast3rErrs : ℚ × ℚ
  coarseErrs : ℚ × ℚ
  solveErrs : ℚ × ℚ
  elapsed : ℚ
deriving DecidableEq

/-- The observable outcome of one raw-variant iteration: the new accumulator,
the value of the local `rotError_final`/`transError_final` pair after the
iteration (the Python local persists across loop iterations), and whether
the no-match fallback branch (lines 112-119, nested under
`if result is not None:`) was taken. -/
structure RawStep where
  state : LocState
  finalEnv : Option (ℚ × ℚ)
  noMatchFallbackTaken : Bool
deriving DecidableEq

/-- One iteration of the per-frame loop of the raw variant
(src/z_localization/loc_inference_ace_raw.py lines 102-167).  `result` is
initialized to `None` (line 102) and assigned by the matcher only for
match_type 0 or 2; match_type 1 instead assigns
`rotError_final, transError_final` directly.  The block of lines 111-152 is
guarded by `if result is not None:`; inside it, `if result is None:` (line
112) guards the no-match fallback, and the too-few-keypoints check (line
120) records the coarse errors and continues.  Every path that does not
`continue` falls through to the common recording tail (lines 153-167),
which reads `rotError_final` / `transError_final`: if they were never
assigned, Python raises `NameError`.  `finalPrev` is the value of that
local from previous iterations (`none` = never assigned). -/
def processFrameRaw (args : Args) (fr : RawFrame) (finalPrev : Option (ℚ × ℚ))
    (s : LocState) : Except PyErr RawStep :=
  let result : Option MatchRes :=
    if fr.matchType = 0 then fr.matcherResult
    else if fr.matchType = 2 then fr.matcherResult
    else none
  let env1 : Option (ℚ × ℚ) :=
    if fr.matchType = 1 then some fr.mast3rErrs else finalPrev
  match result with
  | some r =>
      if (some r : Option MatchRes) = none then
        .ok { state := recordFrame s fr.coarseErrs fr.coarseErrs 0
              finalEnv := env1, noMatchFallbackTaken := true }
      else if ¬ (r.mkpt1.length > args.stop_kpt_num) then
        .ok { state := recordFrame s fr.coarseErrs fr.coarseErrs fr.elapsed
              finalEnv := env1, noMatchFallbackTaken := false }
      else
        .ok { state := recordFrame s fr.coarseErrs fr.solveErrs fr.elapsed
              finalEnv := some fr.solveErrs, noMatchFallbackTaken := false }
  | none =>
      match env1 with
      | none => .error (.nameError "rotError_final")
      | some fe =>
          .ok { state := recordFrame s fr.coarseErrs fe fr.elapsed
                finalEnv := some fe, noMatchFallbackTaken := false }

/-! ## Concrete fixtures for witnesses and counterexamples -/

/-- A camera with identity rotation used by concrete checks. -/
def camW : Camera :=
  { R := 1, T := fun _ => 0, FoVx := 1, image_width := 2, image_height := 2
    original_image := 0, image_name := 0 }

/-- A loop input frame over `camW` with identity ground-truth pose and a
wall-clock duration of 5. -/
def frW : FrameIn := { view := camW, image_B1HW := 0, gt_pose_44 := 1, elapsed := 5 }

/-- Default-flavoured configuration: `stop_kpt_num = 30`,
`ransac_iters = 20000`, `match_type = 0`, `pnp = "iters"`. -/
def argsW : Args :=
  { stop_kpt_num := 30, ransac_iters := 20000, match_type := 0, pnp := "iters" }

/-- Like `argsW` but selecting the EPnP strategy (`pnp = "epnp"`). -/
def argsE : Args :=
  { stop_kpt_num := 30, ransac_iters := 20000, match_type := 0, pnp := "epnp" }

/-- An oracle bundle whose matcher returns `None` for every frame. -/
def extNone : Ext :=
  { fov2focal := fun f _ => f
    coarse := fun _ => 1
    renderFn := fun _ => ⟨0, 0, 0, 0⟩
    m0 := fun _ _ _ => none
    m1 := fun _ _ _ => none
    m2 := fun _ _ => none
    m3 := fun _ _ => none
    m4 := fun _ _ => none
    projectFn := fun _ _ _ _ => []
    solveIters := fun _ _ _ _ => (true, fun _ => 0, fun _ => 0)
    solveEpnp := fun _ _ _ => (true, fun _ => 0, fun _ => 0)
    rodrigues := fun _ => 1
    solvePycolmap := fun _ _ _ _ _ => (1, fun _ => 0)
    errAce := fun _ _ => (1, 2)
    errFinal := fun _ _ _ _ => (7, 9) }

/-- A matcher result with 31 correspondences on each side. -/
def rFail : MatchRes :=
  ⟨List.replicate 31 (0, 0), List.replicate 31 (0, 0)⟩

/-- An oracle bundle whose matcher returns 31 correspondences and whose
iterative PnP solver reports failure (`retval = False`); the coarse errors
are `(1, 2)` and the solver-derived final errors `(7, 9)`. -/
def extFail : Ext :=
  { extNone with
    m0 := fun _ _ _ => some rFail
    solveIters := fun _ _ _ _ => (false, fun _ => 0, fun _ => 0) }

/-- An oracle bundle whose coarse-pose provider returns the constant-5
matrix, so that `update_RT` visibly overwrites the rotation of the view. -/
def extFive : Ext :=
  { extNone with coarse := fun _ => Matrix.of fun _ _ => (5 : ℚ) }

/-- A second ground-truth pose (all entries 2) for the non-interference
check, differing from that of `frW`. -/
def frW2 : FrameIn :=
  { view := { camW with R := Matrix.of fun _ _ => 3, T := fun _ => 4 }
    image_B1HW := 0, gt_pose_44 := Matrix.of fun _ _ => 2, elapsed := 5 }

/-- A raw-variant frame: sparse matcher selected (`match_type = 0`) and the
matcher returned `None`. -/
def rawFrW : RawFrame :=
  { matchType := 0, matcherResult := none, mast3rErrs := (3, 3)
    coarseErrs := (1, 2), solveErrs := (7, 9), elapsed := 5 }

/-! ## Theorems -/

/-- C6: for every pair of 3x3 matrices (in particular every pair of valid
orthonormal rotations) the trace-derived cosine argument is clamped into
`[-1, 1]` before the inverse cosine is applied, so the rotation-error
computation never leaves the arccos domain, however far floating-point
overshoot pushes the raw argument. -/
theorem rotation_error_domain_safe (acosDeg : ℚ → ℚ) (R_est R_gt : M3) :
    -1 ≤ clampedRotArg R_est R_gt ∧ clampedRotArg R_est R_gt ≤ 1
    ∧ rotErrorDeg acosDeg R_est R_gt = acosDeg (clampedRotArg R_est R_gt) := by
  unfold clampedRotArg clampCos
  exact ⟨le_max_left _ _, max_le (by norm_num) (min_le_left _ _), rfl⟩

/-- C7: `localize` builds the `Scene` with `shuffle=False` and the test
`DataLoader` with `shuffle=False`, so the processed frame sequence is the
dataset order, independently of any RNG state, and two runs over identical
inputs and configuration produce identical accumulated error series. -/
theorem deterministic_enumeration_order (ext : Ext) (args : Args)
    (rngS1 rngS2 : List Camera → List Camera)
    (rngL1 rngL2 : List LoaderRec → List LoaderRec)
    (cams : List Camera) (recs : List LoaderRec) :
    localizeModel ext args rngS1 rngL1 cams recs =
      localizeModel ext args rngS2 rngL2 cams recs
    ∧ localizeModel ext args rngS1 rngL1 cams recs =
      runFrames ext args (List.zipWith mkFrame cams recs) initState :=
  ⟨rfl, rfl⟩

/-- C5 counterexample: a split with zero recordable frames leaves `rErrs`
empty, and the summary step then raises ZeroDivisionError at
`total_elapsed_time / len(rErrs)` instead of terminating with a dedicated
diagnostic. -/
theorem empty_split_division_counterexample :
    runFrames extNone argsW [] initState = .ok initState
    ∧ summarize initState = .error .zeroDivisionError := ⟨rfl, rfl⟩

/-- C5 amended: if the error series are empty at the end of a split, the
run does not emit a summary or a dedicated diagnostic; the mean-elapsed-time
division raises ZeroDivisionError. -/
theorem empty_split_zero_division (s : LocState) (h : s.rErrs = []) :
    summarize s = .error .zeroDivisionError := by
  unfold summarize
  rw [h]
  rfl

/-- Witness for `empty_split_zero_division` at the initial accumulator. -/
theorem empty_split_zero_division_witness :
    initState.rErrs = [] ∧ summarize initState = .error .zeroDivisionError :=
  ⟨rfl, empty_split_zero_division initState rfl⟩

/-- C3 counterexample: a frame whose matcher returns `None` is processed and
recorded (`rErrs` gains one entry), yet its elapsed wall time of 5 is not
added to the total of the run, which stays 0 — refuting "for every processed
frame the elapsed wall time of that frame is added to the total". -/
theorem elapsed_time_skipped_counterexample :
    frW.elapsed = 5
    ∧ (runFrames extNone argsW [frW] initState).map
        (fun s => (s.total_elapsed_time, s.rErrs.length)) = .ok (0, 1)
    ∧ (0 : ℚ) ≠ 5 := by
  refine ⟨rfl, ?_, by norm_num⟩
  have h0 : matcherSel extNone argsW frW = some none := rfl
  simp [runFrames, processFrame, h0, recordFrame, initState, Except.map]

/-- C3 amended: every frame except those whose matcher returns `None`
contributes its elapsed time to the total (the `result is None` branch
skips the accumulation), and every recorded frame — fallback frames
included — adds exactly one entry to `rErrs`, whose length is the divisor
of the reported mean elapsed time. -/
theorem elapsed_time_accounting (ext : Ext) (args : Args) (fr : FrameIn)
    (s : LocState) :
    (processFrame ext args fr s).map
        (fun o => (o.state.total_elapsed_time, o.state.rErrs.length)) =
      (processFrame ext args fr s).map
        (fun _ => (s.total_elapsed_time +
            (if matcherSel ext args fr = some none then 0 else fr.elapsed),
          s.rErrs.length + 1)) := by
  unfold processFrame
  cases hms : matcherSel ext args fr with
  | none => rfl
  | some mr =>
    cases mr with
    | none =>
      dsimp only
      simp [Except.map, recordFrame]
    | some r =>
      dsimp only
      by_cases hk : ¬ (r.mkpt1.length > args.stop_kpt_num)
      · rw [if_pos hk]
        simp [Except.map, recordFrame]
      · rw [if_neg hk]
        cases solveSel ext args fr r (dbWorldOf ext fr r) with
        | none => rfl
        | some o =>
          obtain ⟨flag, Rf, tf⟩ := o
          simp [Except.map, recordFrame]

/-- C4 counterexample: the per-frame loop is not read-only on the frame
record — `view.update_RT(out_R, t_inv)` overwrites the stored
rotation with the coarse pose: the `(0,0)` rotation entry is 1 before the
frame is processed and 5 afterwards. -/
theorem frame_record_mutated_counterexample :
    frW.view.R 0 0 = 1
    ∧ (processFrame extFive argsW frW initState).map (fun o => o.view.R 0 0) =
        .ok 5
    ∧ (5 : ℚ) ≠ 1 := by
  refine ⟨by simp [frW, camW, Matrix.one_apply], ?_, by norm_num⟩
  have h0 : matcherSel extFive argsW frW = some none := rfl
  have h1 : rotOf4 (coarsePose extFive frW) 0 0 = 5 := rfl
  simp [processFrame, h0, Except.map, viewPosed, updateRT, h1]

/-- C4 amended: processing a frame does mutate its view object — it
overwrites the rotation of the view with the coarse camera-to-world rotation and
its translation with the coarse world-to-camera translation before
rendering — while every other field of the frame record (intrinsics,
dimensions, image, identifier) is left unchanged by `update_RT`. -/
theorem view_pose_overwritten (ext : Ext) (args : Args) (fr : FrameIn)
    (s : LocState) :
    (processFrame ext args fr s).map (fun o => o.view) =
      (processFrame ext args fr s).map (fun _ =>
        updateRT fr.view (rotOf4 (coarsePose ext fr)) (tInvOf ext fr))
    ∧ ∀ R t, (updateRT fr.view R t).R = R ∧ (updateRT fr.view R t).T = t
      ∧ (updateRT fr.view R t).FoVx = fr.view.FoVx
      ∧ (updateRT fr.view R t).image_width = fr.view.image_width
      ∧ (updateRT fr.view R t).image_height = fr.view.image_height
      ∧ (updateRT fr.view R t).original_image = fr.view.original_image
      ∧ (updateRT fr.view R t).image_name = fr.view.image_name := by
  constructor
  · unfold processFrame
    cases hms : matcherSel ext args fr with
    | none => rfl
    | some mr =>
      cases mr with
      | none => rfl
      | some r =>
        dsimp only
        by_cases hk : ¬ (r.mkpt1.length > args.stop_kpt_num)
        · rw [if_pos hk]
          rfl
        · rw [if_neg hk]
          cases solveSel ext args fr r (dbWorldOf ext fr r) with
          | none => rfl
          | some o =>
            obtain ⟨flag, Rf, tf⟩ := o
            rfl
  · intro R t
    exact ⟨rfl, rfl, rfl, rfl, rfl, rfl, rfl⟩

/-- C1: if the matcher returned `None`, or returned fewer pairs than the
configured minimum keypoint count `stop_kpt_num`, the frame falls back: the
rotation and translation errors of the coarse pose are appended to both the
prior series and the final series (so prior and final are identical for the
frame), and neither the unprojector nor the pose solver is invoked. -/
theorem fallback_on_no_or_few_matches (ext : Ext) (args : Args) (fr : FrameIn)
    (s : LocState)
    (h : matcherSel ext args fr = some none ∨
      ∃ r, matcherSel ext args fr = some (some r)
        ∧ r.mkpt1.length < args.stop_kpt_num) :
    ∃ out, processFrame ext args fr s = .ok out
      ∧ out.state.prior_rErr = s.prior_rErr ++ [(coarseErrs ext fr).1]
      ∧ out.state.rErrs = s.rErrs ++ [(coarseErrs ext fr).1]
      ∧ out.state.prior_tErr = s.prior_tErr ++ [(coarseErrs ext fr).2]
      ∧ out.state.tErrs = s.tErrs ++ [(coarseErrs ext fr).2]
      ∧ out.dbWorld = none ∧ out.finalPose = none := by
  rcases h with h | ⟨r, h, hlen⟩
  · refine ⟨{ state := recordFrame s (coarseErrs ext fr) (coarseErrs ext fr) 0
              view := viewPosed ext fr, pkg := renderedPkg ext fr
              matchRes := none, dbWorld := none, finalPose := none
              solverFlag := none }, ?_, rfl, rfl, rfl, rfl, rfl, rfl⟩
    unfold processFrame
    rw [h]
  · have hng : ¬ (r.mkpt1.length > args.stop_kpt_num) := by omega
    refine ⟨{ state := recordFrame s (coarseErrs ext fr) (coarseErrs ext fr)
                fr.elapsed
              view := viewPosed ext fr, pkg := renderedPkg ext fr
              matchRes := some r, dbWorld := none, finalPose := none
              solverFlag := none }, ?_, rfl, rfl, rfl, rfl, rfl, rfl⟩
    unfold processFrame
    rw [h]
    exact if_pos hng

/-- Witness for `fallback_on_no_or_few_matches`: a concrete frame whose
matcher returns `None`. -/
theorem fallback_on_no_or_few_matches_witness :
    matcherSel extNone argsW frW = some none
    ∧ ∃ out, processFrame extNone argsW frW initState = .ok out
      ∧ out.state.prior_rErr = initState.prior_rErr ++ [(coarseErrs extNone frW).1]
      ∧ out.state.rErrs = initState.rErrs ++ [(coarseErrs extNone frW).1]
      ∧ out.state.prior_tErr = initState.prior_tErr ++ [(coarseErrs extNone frW).2]
      ∧ out.state.tErrs = initState.tErrs ++ [(coarseErrs extNone frW).2]
      ∧ out.dbWorld = none ∧ out.finalPose = none :=
  ⟨rfl, fallback_on_no_or_few_matches extNone argsW frW initState (Or.inl rfl)⟩

/-- C2 counterexample: a frame whose iterative PnP solver reports failure
(`retval = False`, surfaced as `solverFlag = some false`) does not fall
back to the coarse pose: the recorded final rotation error is the
solver-derived 7 while the prior (coarse) rotation error is 1 — prior and
final differ, refuting "the frame degrades to the fallback outcome". -/
theorem solver_failure_recorded_counterexample :
    (processFrame extFail argsW frW initState).map
        (fun o => (o.solverFlag, o.state.rErrs, o.state.prior_rErr)) =
      .ok (some false, [7], [1])
    ∧ (7 : ℚ) ≠ 1 := by
  refine ⟨?_, by norm_num⟩
  have h0 : matcherSel extFail argsW frW = some (some rFail) := rfl
  have hk : ¬ ¬ (rFail.mkpt1.length > argsW.stop_kpt_num) := by decide
  have hs : solveSel extFail argsW frW rFail (dbWorldOf extFail frW rFail) =
      some (some false, (1 : M3), fun _ => 0) := rfl
  have hc : coarseErrs extFail frW = (1, 2) := rfl
  have hf : extFail.errFinal frW.view.R frW.view.T (1 : M3) (fun _ => 0) =
      (7, 9) := rfl
  unfold processFrame
  rw [h0]
  dsimp only
  rw [if_neg hk, hs]
  dsimp only
  simp [Except.map, recordFrame, hc, hf, initState]

/-- C2 amended: once a frame reaches the pose-solving step (enough
correspondences) under either `cv2.solvePnPRansac` strategy (`pnp` set to
`"iters"` or `"epnp"`), the recorded final errors are computed from the
pose returned by the solver, whatever success flag it reports — the flag
(bound to `_` in the source in both branches) is never consulted and there
is no fallback path after the keypoint-count check. -/
theorem solver_flag_ignored (ext : Ext) (args : Args) (fr : FrameIn)
    (s : LocState) (r : MatchRes)
    (hm : matcherSel ext args fr = some (some r))
    (hk : r.mkpt1.length > args.stop_kpt_num)
    (hp : args.pnp = "iters" ∨ args.pnp = "epnp") :
    ∃ b Rf tf,
      solveSel ext args fr r (dbWorldOf ext fr r) = some (some b, Rf, tf)
      ∧ processFrame ext args fr s = .ok
          { state := recordFrame s (coarseErrs ext fr)
              (ext.errFinal fr.view.R fr.view.T Rf.transpose tf) fr.elapsed
            view := viewPosed ext fr, pkg := renderedPkg ext fr
            matchRes := some r, dbWorld := some (dbWorldOf ext fr r)
            finalPose := some (Rf, tf), solverFlag := some b } := by
  obtain ⟨b, Rf, tf, hs⟩ :
      ∃ b Rf tf, solveSel ext args fr r (dbWorldOf ext fr r) =
        some (some b, Rf, tf) := by
    rcases hp with hp | hp
    · refine ⟨(ext.solveIters (dbWorldOf ext fr r) r.mkpt0 (kOf ext fr)
          args.ransac_iters).1,
        ext.rodrigues (ext.solveIters (dbWorldOf ext fr r) r.mkpt0 (kOf ext fr)
          args.ransac_iters).2.1,
        (ext.solveIters (dbWorldOf ext fr r) r.mkpt0 (kOf ext fr)
          args.ransac_iters).2.2, ?_⟩
      unfold solveSel
      rw [hp]
      rfl
    · refine ⟨(ext.solveEpnp (dbWorldOf ext fr r) r.mkpt0 (kOf ext fr)).1,
        ext.rodrigues
          (ext.solveEpnp (dbWorldOf ext fr r) r.mkpt0 (kOf ext fr)).2.1,
        (ext.solveEpnp (dbWorldOf ext fr r) r.mkpt0 (kOf ext fr)).2.2, ?_⟩
      unfold solveSel
      rw [hp]
      rfl
  refine ⟨b, Rf, tf, hs, ?_⟩
  unfold processFrame
  simp only [hm]
  rw [if_neg (fun hng => hng hk), hs]

/-- Witness for `solver_flag_ignored`: the concrete failing-solver frame,
once under the iterative strategy and once under the EPnP strategy. -/
theorem solver_flag_ignored_witness :
    (matcherSel extFail argsW frW = some (some rFail)
      ∧ rFail.mkpt1.length > argsW.stop_kpt_num
      ∧ (argsW.pnp = "iters" ∨ argsW.pnp = "epnp")
      ∧ ∃ b Rf tf,
          solveSel extFail argsW frW rFail (dbWorldOf extFail frW rFail) =
            some (some b, Rf, tf)
          ∧ processFrame extFail argsW frW initState = .ok
              { state := recordFrame initState (coarseErrs extFail frW)
                  (extFail.errFinal frW.view.R frW.view.T Rf.transpose tf)
                  frW.elapsed
                view := viewPosed extFail frW, pkg := renderedPkg extFail frW
                matchRes := some rFail
                dbWorld := some (dbWorldOf extFail frW rFail)
                finalPose := some (Rf, tf), solverFlag := some b })
    ∧ (matcherSel extFail argsE frW = some (some rFail)
      ∧ rFail.mkpt1.length > argsE.stop_kpt_num
      ∧ (argsE.pnp = "iters" ∨ argsE.pnp = "epnp")
      ∧ ∃ b Rf tf,
          solveSel extFail argsE frW rFail (dbWorldOf extFail frW rFail) =
            some (some b, Rf, tf)
          ∧ processFrame extFail argsE frW initState = .ok
              { state := recordFrame initState (coarseErrs extFail frW)
                  (extFail.errFinal frW.view.R frW.view.T Rf.transpose tf)
                  frW.elapsed
                view := viewPosed extFail frW, pkg := renderedPkg extFail frW
                matchRes := some rFail
                dbWorld := some (dbWorldOf extFail frW rFail)
                finalPose := some (Rf, tf), solverFlag := some b }) :=
  ⟨⟨rfl, by decide, Or.inl rfl,
      solver_flag_ignored extFail argsW frW initState rFail rfl (by decide)
        (Or.inl rfl)⟩,
    ⟨rfl, by decide, Or.inr rfl,
      solver_flag_ignored extFail argsE frW initState rFail rfl (by decide)
        (Or.inr rfl)⟩⟩

/-! ### Block-matrix algebra for `c2w_to_w2c` -/

/-- Extracting the rotation block back out of `mk44`. -/
theorem rotOf4_mk44 (R : M3) (t : V3) : rotOf4 (mk44 R t) = R := by
  ext i j
  fin_cases i <;> fin_cases j <;> simp [rotOf4, mk44]

/-- Extracting the translation column back out of `mk44`. -/
theorem transOf4_mk44 (R : M3) (t : V3) : transOf4 (mk44 R t) = t := by
  funext i
  fin_cases i <;> simp [transOf4, mk44]

/-- Multiplication law for the `[[R, t], [0, 1]]` block form. -/
theorem mk44_mul (R S : M3) (t u : V3) :
    mk44 R t * mk44 S u = mk44 (R * S) (R.mulVec u + t) := by
  ext i j
  fin_cases i <;> fin_cases j <;>
    simp [mk44, Matrix.mul_apply, Fin.sum_univ_four, Matrix.mulVec,
      Matrix.dotProduct, Fin.sum_univ_three, Matrix.vecHead, Matrix.vecTail]

/-- The block form of the identity. -/
theorem mk44_one : mk44 (1 : M3) 0 = (1 : M4) := by
  ext i j
  fin_cases i <;> fin_cases j <;>
    simp [mk44, Matrix.one_apply, Matrix.vecHead, Matrix.vecTail, Function.comp]

/-- A 4x4 matrix whose bottom row is `[0,0,0,1]` is its own block form. -/
theorem mk44_rot_trans (T : M4) (hbot : ∀ j, T 3 j = if j = 3 then 1 else 0) :
    mk44 (rotOf4 T) (transOf4 T) = T := by
  ext i j
  fin_cases i <;> fin_cases j <;>
    simp [mk44, rotOf4, transOf4, hbot, Matrix.vecHead, Matrix.vecTail]

/-- The rotation block of the identity 4x4 transform. -/
theorem rotOf4_one : rotOf4 (1 : M4) = (1 : M3) := by
  ext i j
  fin_cases i <;> fin_cases j <;>
    simp [rotOf4, Matrix.one_apply, Matrix.vecHead, Matrix.vecTail,
      Function.comp]

/-- `c2w_to_w2c` on an explicit block form. -/
theorem c2w_to_w2c_mk44 (R : M3) (t : V3) :
    c2w_to_w2c (mk44 R t) = mk44 R.transpose (-(R.transpose.mulVec t)) := by
  unfold c2w_to_w2c
  rw [rotOf4_mk44, transOf4_mk44]

/-- Inverse and involution facts for `c2w_to_w2c` on a rigid block form. -/
theorem c2w_to_w2c_mk44_inverse (R : M3) (t : V3)
    (hRtR : R.transpose * R = 1) (hRRt : R * R.transpose = 1) :
    mk44 R t * c2w_to_w2c (mk44 R t) = 1
    ∧ c2w_to_w2c (mk44 R t) * mk44 R t = 1
    ∧ c2w_to_w2c (c2w_to_w2c (mk44 R t)) = mk44 R t := by
  have hz : R.mulVec (-(R.transpose.mulVec t)) + t = 0 := by
    rw [Matrix.mulVec_neg, Matrix.mulVec_mulVec, hRRt, Matrix.one_mulVec,
      neg_add_cancel]
  have hz2 : R.transpose.mulVec t + -(R.transpose.mulVec t) = 0 :=
    add_neg_cancel _
  refine ⟨?_, ?_, ?_⟩
  · rw [c2w_to_w2c_mk44, mk44_mul, hRRt, hz, mk44_one]
  · rw [c2w_to_w2c_mk44, mk44_mul, hRtR, hz2, mk44_one]
  · rw [c2w_to_w2c_mk44, c2w_to_w2c_mk44, Matrix.transpose_transpose,
      Matrix.mulVec_neg, neg_neg, Matrix.mulVec_mulVec, hRRt,
      Matrix.one_mulVec]

/-- C9: on any 4x4 rigid transform (orthonormal rotation block with
determinant +1, bottom row `[0,0,0,1]`), `c2w_to_w2c` returns a transform
whose rotation block is the transpose of the input rotation — again
orthonormal with determinant +1 — that is a two-sided inverse of its input,
and applying `c2w_to_w2c` twice returns the original transform. -/
theorem c2w_to_w2c_rigid (T : M4)
    (hR : (rotOf4 T).transpose * rotOf4 T = 1)
    (hdet : (rotOf4 T).det = 1)
    (hbot : ∀ j, T 3 j = if j = 3 then 1 else 0) :
    rotOf4 (c2w_to_w2c T) = (rotOf4 T).transpose
    ∧ (rotOf4 (c2w_to_w2c T)).transpose * rotOf4 (c2w_to_w2c T) = 1
    ∧ (rotOf4 (c2w_to_w2c T)).det = 1
    ∧ T * c2w_to_w2c T = 1
    ∧ c2w_to_w2c T * T = 1
    ∧ c2w_to_w2c (c2w_to_w2c T) = T := by
  have hRR : rotOf4 T * (rotOf4 T).transpose = 1 := Matrix.mul_eq_one_comm.mp hR
  have hT : T = mk44 (rotOf4 T) (transOf4 T) := (mk44_rot_trans T hbot).symm
  have hrot : rotOf4 (c2w_to_w2c T) = (rotOf4 T).transpose := by
    conv_lhs => rw [hT, c2w_to_w2c_mk44, rotOf4_mk44]
  obtain ⟨hinv1, hinv2, hinvol⟩ :=
    c2w_to_w2c_mk44_inverse (rotOf4 T) (transOf4 T) hR hRR
  refine ⟨hrot, ?_, ?_, ?_, ?_, ?_⟩
  · rw [hrot, Matrix.transpose_transpose, hRR]
  · rw [hrot, Matrix.det_transpose, hdet]
  · rw [hT]
    exact hinv1
  · rw [hT]
    exact hinv2
  · rw [hT]
    exact hinvol

/-- Witness for `c2w_to_w2c_rigid` at the identity transform. -/
theorem c2w_to_w2c_rigid_witness :
    ((rotOf4 (1 : M4)).transpose * rotOf4 (1 : M4) = 1
      ∧ (rotOf4 (1 : M4)).det = 1
      ∧ ∀ j, (1 : M4) 3 j = if j = 3 then 1 else 0)
    ∧ (rotOf4 (c2w_to_w2c 1) = (rotOf4 (1 : M4)).transpose
      ∧ (rotOf4 (c2w_to_w2c 1)).transpose * rotOf4 (c2w_to_w2c 1) = 1
      ∧ (rotOf4 (c2w_to_w2c 1)).det = 1
      ∧ (1 : M4) * c2w_to_w2c 1 = 1
      ∧ c2w_to_w2c 1 * (1 : M4) = 1
      ∧ c2w_to_w2c (c2w_to_w2c 1) = (1 : M4)) := by
  have h1 : (rotOf4 (1 : M4)).transpose * rotOf4 (1 : M4) = 1 := by
    rw [rotOf4_one, Matrix.transpose_one, Matrix.one_mul]
  have h2 : (rotOf4 (1 : M4)).det = 1 := by
    rw [rotOf4_one, Matrix.det_one]
  have h3 : ∀ j, (1 : M4) 3 j = if j = 3 then 1 else 0 := by
    intro j
    fin_cases j <;> simp [Matrix.one_apply]
  exact ⟨⟨h1, h2, h3⟩, c2w_to_w2c_rigid 1 h1 h2 h3⟩

/-- C8: the ground truth (`view.R`, `view.T`, `gt_pose_44`) feeds only the
error evaluation — for two frames identical except for their ground-truth
pose, the rendered package, the matcher outcome, the unprojected world
points and the solver-derived final pose are identical; only recorded
error values may differ. -/
theorem gt_used_only_for_evaluation (ext : Ext) (args : Args) (s : LocState)
    (f1 f2 : FrameIn)
    (hF : f1.view.FoVx = f2.view.FoVx)
    (hw : f1.view.image_width = f2.view.image_width)
    (hh : f1.view.image_height = f2.view.image_height)
    (ho : f1.view.original_image = f2.view.original_image)
    (hn : f1.view.image_name = f2.view.image_name)
    (hi : f1.image_B1HW = f2.image_B1HW)
    (he : f1.elapsed = f2.elapsed) :
    renderedPkg ext f1 = renderedPkg ext f2
    ∧ matcherSel ext args f1 = matcherSel ext args f2
    ∧ (∀ r, dbWorldOf ext f1 r = dbWorldOf ext f2 r)
    ∧ (processFrame ext args f1 s).map
        (fun o => (o.pkg, o.matchRes, o.dbWorld, o.finalPose)) =
      (processFrame ext args f2 s).map
        (fun o => (o.pkg, o.matchRes, o.dbWorld, o.finalPose)) := by
  obtain ⟨⟨R1, T1, F1, w1, h1, oi1, n1⟩, i1, g1, e1⟩ := f1
  obtain ⟨⟨R2, T2, F2, w2, h2, oi2, n2⟩, i2, g2, e2⟩ := f2
  dsimp only at hF hw hh ho hn hi he
  subst hF hw hh ho hn hi he
  have hms : matcherSel ext args ⟨⟨R2, T2, F1, w1, h1, oi1, n1⟩, i1, g2, e1⟩ =
      matcherSel ext args ⟨⟨R1, T1, F1, w1, h1, oi1, n1⟩, i1, g1, e1⟩ := rfl
  refine ⟨rfl, hms.symm, fun r => rfl, ?_⟩
  unfold processFrame
  rw [hms]
  cases hv : matcherSel ext args ⟨⟨R1, T1, F1, w1, h1, oi1, n1⟩, i1, g1, e1⟩ with
  | none => rfl
  | some mr =>
    cases mr with
    | none => rfl
    | some r =>
      dsimp only
      have hss : solveSel ext args ⟨⟨R2, T2, F1, w1, h1, oi1, n1⟩, i1, g2, e1⟩ r
            (dbWorldOf ext ⟨⟨R2, T2, F1, w1, h1, oi1, n1⟩, i1, g2, e1⟩ r) =
          solveSel ext args ⟨⟨R1, T1, F1, w1, h1, oi1, n1⟩, i1, g1, e1⟩ r
            (dbWorldOf ext ⟨⟨R1, T1, F1, w1, h1, oi1, n1⟩, i1, g1, e1⟩ r) := rfl
      by_cases hk : ¬ (r.mkpt1.length > args.stop_kpt_num)
      · rw [if_pos hk, if_pos hk]
        rfl
      · rw [if_neg hk, if_neg hk, hss]
        cases solveSel ext args ⟨⟨R1, T1, F1, w1, h1, oi1, n1⟩, i1, g1, e1⟩ r
            (dbWorldOf ext ⟨⟨R1, T1, F1, w1, h1, oi1, n1⟩, i1, g1, e1⟩ r) with
        | none => rfl
        | some o =>
          obtain ⟨flag, Rf, tf⟩ := o
          rfl

/-- Witness for `gt_used_only_for_evaluation`: two concrete frames that
differ exactly in their ground-truth pose. -/
theorem gt_used_only_for_evaluation_witness :
    (frW.view.FoVx = frW2.view.FoVx
      ∧ frW.view.image_width = frW2.view.image_width
      ∧ frW.view.image_height = frW2.view.image_height
      ∧ frW.view.original_image = frW2.view.original_image
      ∧ frW.view.image_name = frW2.view.image_name
      ∧ frW.image_B1HW = frW2.image_B1HW
      ∧ frW.elapsed = frW2.elapsed)
    ∧ (renderedPkg extNone frW = renderedPkg extNone frW2
      ∧ matcherSel extNone argsW frW = matcherSel extNone argsW frW2
      ∧ (∀ r, dbWorldOf extNone frW r = dbWorldOf extNone frW2 r)
      ∧ (processFrame extNone argsW frW initState).map
          (fun o => (o.pkg, o.matchRes, o.dbWorld, o.finalPose)) =
        (processFrame extNone argsW frW2 initState).map
          (fun o => (o.pkg, o.matchRes, o.dbWorld, o.finalPose))) :=
  ⟨⟨rfl, rfl, rfl, rfl, rfl, rfl, rfl⟩,
    gt_used_only_for_evaluation extNone argsW initState frW frW2
      rfl rfl rfl rfl rfl rfl rfl⟩

/-- C10: in `localize_set` of the raw variant, when a sparse matcher is
selected (match_type 0 or 2) and the matcher returns `None`, the whole
`if result is not None:` block is skipped — so the no-match fallback branch
nested inside it (`if result is None:`) is unreachable on every input — and
the common recording tail reads the never-assigned `rotError_final`,
raising `NameError` instead of recording the coarse pose as the fallback
result. -/
theorem raw_no_match_name_error (args : Args) (fr : RawFrame) (s : LocState)
    (h0 : fr.matchType = 0 ∨ fr.matchType = 2)
    (hm : fr.matcherResult = none) :
    processFrameRaw args fr none s = .error (.nameError "rotError_final")
    ∧ ∀ fr2 prev s2 out, processFrameRaw args fr2 prev s2 = .ok out →
        out.noMatchFallbackTaken = false := by
  constructor
  · simp only [processFrameRaw]
    rcases h0 with h | h <;> rw [h] <;> simp [hm]
  · intro fr2 prev s2 out hok
    simp only [processFrameRaw] at hok
    rcases hr : (if fr2.matchType = 0 then fr2.matcherResult
        else if fr2.matchType = 2 then fr2.matcherResult else none)
      with _ | r
    · rw [hr] at hok
      rcases he : (if fr2.matchType = 1 then some fr2.mast3rErrs else prev)
          with _ | fe
      · rw [he] at hok
        exact absurd hok (by simp)
      · rw [he] at hok
        dsimp only at hok
        injection hok with h2
        subst h2
        rfl
    · rw [hr] at hok
      dsimp only at hok
      rw [if_neg (by simp)] at hok
      by_cases hk : ¬ (r.mkpt1.length > args.stop_kpt_num)
      · rw [if_pos hk] at hok
        injection hok with h2
        subst h2
        rfl
      · rw [if_neg hk] at hok
        injection hok with h2
        subst h2
        rfl

/-- Witness for `raw_no_match_name_error`: a concrete first frame with
`match_type = 0` whose matcher returns `None`. -/
theorem raw_no_match_name_error_witness :
    (rawFrW.matchType = 0 ∨ rawFrW.matchType = 2)
    ∧ rawFrW.matcherResult = none
    ∧ (processFrameRaw argsW rawFrW none initState =
        .error (.nameError "rotError_final")
      ∧ ∀ fr2 prev s2 out, processFrameRaw argsW fr2 prev s2 = .ok out →
          out.noMatchFallbackTaken = false) :=
  ⟨Or.inl rfl, rfl,
    raw_no_match_name_error argsW rawFrW initState (Or.inl rfl) rfl⟩

end FeatureGS
